import Mathlib

/-
Verification of the ai-toolbar repository: a floating annotation toolbar that
captures component metadata for rendered UI elements and assembles it into a
text prompt.  The definitions below are a shallow embedding of the TypeScript
sources `registry/new-york/blocks/toolbar/ai-toolbar.tsx` and
`registry/new-york/blocks/toolbar/hooks/use-bippy.ts`.  Pixel coordinates are
modelled as integers, JS prop values as an inductive type carrying their JS
string rendering, and the external bippy introspection library as an explicit
oracle argument.
-/

namespace AIToolbar

/-- A JavaScript prop value as it appears in a props record.  The code only
distinguishes string values (quoted in the prompt) from everything else, which
is rendered by JS string interpolation; the latter is modelled by its rendered
text. -/
inductive JSValue where
  | str (s : String)
  | other (rendered : String)
deriving DecidableEq

/-- The `source` object of a FiberInfo: file name, line and column. -/
structure SourceLoc where
  fileName : String
  lineNumber : Nat
  columnNumber : Nat
deriving DecidableEq

/-- The `FiberInfo` interface: component name, props record (insertion-ordered
key/value list, as Object.entries iterates it) and optional source location. -/
structure FiberInfo where
  componentName : String
  props : List (String × JSValue)
  source : Option SourceLoc
deriving DecidableEq

/-- The `fiberInfo` field of `AnnotationData` has TS type
`FiberInfo | FiberInfo[] | null`. -/
inductive FiberField where
  | one (fi : FiberInfo)
  | many (l : List FiberInfo)
  | null
deriving DecidableEq

/-- A screen position (`Position` interface). -/
structure Position where
  x : Int
  y : Int
deriving DecidableEq

/-- The `SelectionRect` interface; also stands in for the four fields of a
`DOMRect` that the code reads (left, top, width, height). -/
structure SelectionRect where
  left : Int
  top : Int
  width : Int
  height : Int
deriving DecidableEq

/-- A page element as the selection logic sees it: an identity, its tag name,
its bounding client rect, and whether `el.closest(".ai-toolbar-container")`
is non-null (the element is the toolbar container or lies inside it). -/
structure PageElem where
  id : Nat
  tagName : String
  rect : SelectionRect
  inToolbar : Bool
deriving DecidableEq

/-- The `AnnotationData` interface (the `mode` field is irrelevant to the
claims and omitted). -/
structure AnnotationData where
  element : Option PageElem
  elements : List PageElem
  rect : SelectionRect
  fiberInfo : FiberField
  id : Nat
deriving DecidableEq

/-- Function `getSelectionRect` from both ai-toolbar.tsx and use-bippy.ts (the two
copies are textually identical): null when either endpoint is null, otherwise
the normalized rectangle spanned by the two positions. -/
def getSelectionRect (start : Option Position) (stop : Option Position) :
    Option SelectionRect :=
  match start, stop with
  | some s, some e =>
      some { left := min s.x e.x
             top := min s.y e.y
             width := |e.x - s.x|
             height := |e.y - s.y| }
  | _, _ => Option.none

/-- C10: getSelectionRect is symmetric in its two endpoints, returns null
exactly when an endpoint is null, produces left/top as coordinatewise minima
and width/height as absolute differences, and every rectangle it returns has
non-negative width and height. -/
theorem getSelectionRect_symm_normalizing (a b : Option Position)
    (p q : Position) :
    getSelectionRect a b = getSelectionRect b a ∧
    (getSelectionRect a b = Option.none ↔
      a = Option.none ∨ b = Option.none) ∧
    getSelectionRect (some p) (some q) =
      some { left := min p.x q.x, top := min p.y q.y,
             width := |q.x - p.x|, height := |q.y - p.y| } ∧
    (∀ r : SelectionRect, getSelectionRect a b = some r →
      0 ≤ r.width ∧ 0 ≤ r.height) := by
  refine ⟨?_, ?_, rfl, ?_⟩
  · cases a with
    | none => cases b <;> rfl
    | some s =>
      cases b with
      | none => rfl
      | some e =>
        simp only [getSelectionRect, Option.some.injEq, SelectionRect.mk.injEq]
        exact ⟨min_comm _ _, min_comm _ _, abs_sub_comm _ _, abs_sub_comm _ _⟩
  · cases a <;> cases b <;> simp [getSelectionRect]
  · intro r hr
    cases a with
    | none => simp [getSelectionRect] at hr
    | some s =>
      cases b with
      | none => simp [getSelectionRect] at hr
      | some e =>
        simp only [getSelectionRect, Option.some.injEq] at hr
        subst hr
        exact ⟨abs_nonneg _, abs_nonneg _⟩

/-- Witness for C10 at concrete endpoints (0,0) and (3,4). -/
theorem getSelectionRect_symm_normalizing_witness :
    0 ≤ (SelectionRect.mk 0 0 3 4).width ∧
    0 ≤ (SelectionRect.mk 0 0 3 4).height :=
  (getSelectionRect_symm_normalizing (some ⟨0, 0⟩) (some ⟨3, 4⟩)
    ⟨0, 0⟩ ⟨3, 4⟩).2.2.2 ⟨0, 0, 3, 4⟩ (by decide)

/-- String append distributes over the underlying character list; used to
normalize string-concatenation equalities. -/
theorem dataAppend (a b : String) : (a ++ b).data = a.data ++ b.data := rfl

/-- JS string truthiness fallback `s || d` as used on string fields. -/
def jsOrStr (s d : String) : String :=
  if s = "" then d else s

/-- The fiber info that `annotationToPrompt` (and `AnnotationCard`) actually
read: `Array.isArray(annotation.fiberInfo) ? annotation.fiberInfo[0] :
annotation.fiberInfo`. -/
def firstFiber : FiberField → Option FiberInfo
  | FiberField.one fi => some fi
  | FiberField.many l => l.head?
  | FiberField.null => Option.none

/-- Rendering of the optional `idx` argument in the heading template
`Annotation ${idx ? idx : ""}:` — empty when the index is absent or 0
(JS falsy). -/
def renderIdx : Option Nat → String
  | some n => if n = 0 then "" else toString n
  | Option.none => ""

/-- One `key=value` pair of the props line: string values are wrapped in
double quotes, other values use their JS string rendering. -/
def renderProp (p : String × JSValue) : String :=
  match p.2 with
  | JSValue.str s => p.1 ++ "=\"" ++ s ++ "\""
  | JSValue.other r => p.1 ++ "=" ++ r

/-- The expression `Object.entries(props).slice(0, 5).map(...).join(", ")`. -/
def propsList (ps : List (String × JSValue)) : String :=
  String.intercalate ", " ((ps.take 5).map renderProp)

/-- Function `annotationToPrompt` from ai-toolbar.tsx: serializes an annotation and a
change request into the fixed prompt template. -/
def annotationToPrompt (ann : AnnotationData) (changeRequest : String)
    (idx : Option Nat) : String :=
  let fi := firstFiber ann.fiberInfo
  let componentName :=
    match fi with
    | some f => jsOrStr f.componentName "unknown"
    | Option.none => "unknown"
  let source :=
    match fi with
    | some f => f.source
    | Option.none => Option.none
  let props :=
    match fi with
    | some f => some f.props
    | Option.none => Option.none
  let ctx1 := "[Component: <" ++ componentName ++ ">]"
  let ctx2 :=
    match source with
    | some s =>
        ctx1 ++ "\n" ++ "[Location: " ++ s.fileName ++ ":" ++
          toString s.lineNumber ++ ":" ++ toString s.columnNumber ++ "]"
    | Option.none => ctx1
  let ctx3 :=
    match props with
    | some ps =>
        if 0 < ps.length then
          ctx2 ++ "\n" ++ "[Props: " ++ propsList ps ++
            (if 5 < ps.length then "..." else "") ++ "]"
        else ctx2
    | Option.none => ctx2
  "Annotation " ++ renderIdx idx ++ ":" ++ "\n" ++ ctx3 ++ "\n" ++
    "[Change Request]: " ++ changeRequest ++ "\n"

/-- Join a list of lines with newline separators (spec-side formulation of
the prompt template as a list of lines). -/
def joinLines : List String → String
  | [] => ""
  | [l] => l
  | l :: ls => l ++ "\n" ++ joinLines ls

/-- Modelled from the claim wording: the component name of the prompt, the
captured component name, or "unknown" when absent (no fiber captured or an
empty name, which JS `||` treats as absent). -/
def specName (ann : AnnotationData) : String :=
  match firstFiber ann.fiberInfo with
  | some f => if f.componentName = "" then "unknown" else f.componentName
  | Option.none => "unknown"

/-- Modelled from the claim wording: the location line, present if and only
if a source location was captured. -/
def specLocLines (ann : AnnotationData) : List String :=
  match firstFiber ann.fiberInfo with
  | some f =>
      match f.source with
      | some s =>
          ["[Location: " ++ s.fileName ++ ":" ++ toString s.lineNumber ++
            ":" ++ toString s.columnNumber ++ "]"]
      | Option.none => []
  | Option.none => []

/-- Modelled from the claim wording: the props line, present if and only if
the props record is non-empty, listing at most the first 5 props joined by
", " with "..." appended exactly when there are more than 5 props. -/
def specPropsLines (ann : AnnotationData) : List String :=
  match firstFiber ann.fiberInfo with
  | some f =>
      if f.props.length = 0 then []
      else
        ["[Props: " ++ String.intercalate ", " ((f.props.take 5).map renderProp)
          ++ (if 5 < f.props.length then "..." else "") ++ "]"]
  | Option.none => []

/-- Modelled from the claim wording of C2: the prompt is the heading line,
the component line, the optional location line, the optional props line and
the change-request line, joined by newlines, with a trailing newline. -/
def specAnnotationPrompt (ann : AnnotationData) (changeRequest : String)
    (idx : Nat) : String :=
  joinLines
    (["Annotation " ++ toString idx ++ ":",
      "[Component: <" ++ specName ann ++ ">]"] ++
      specLocLines ann ++ specPropsLines ann ++
      ["[Change Request]: " ++ changeRequest]) ++ "\n"

/-- C2: for every annotation, change request and (positive) index,
annotationToPrompt produces exactly the fixed template: heading line,
component line, location line iff a source was captured, props line iff the
props record is non-empty (first 5 props, string values quoted, "..." iff
more than 5), change-request line, trailing newline. -/
theorem annotationToPrompt_template (ann : AnnotationData) (cr : String)
    (idx : Nat) (h : 0 < idx) :
    annotationToPrompt ann cr (some idx) = specAnnotationPrompt ann cr idx := by
  have hid : renderIdx (some idx) = toString idx := by
    simp [renderIdx, Nat.pos_iff_ne_zero.mp h]
  unfold annotationToPrompt specAnnotationPrompt specName specLocLines
    specPropsLines
  cases hfi : firstFiber ann.fiberInfo with
  | none =>
      apply String.ext
      simp [hid, joinLines, dataAppend, List.append_assoc]
  | some f =>
      cases hsrc : f.source <;> cases hp : f.props <;>
        (apply String.ext
         simp [hid, hsrc, hp, joinLines, jsOrStr, propsList, dataAppend,
           List.append_assoc])

/-- Witness for C2 at a concrete annotation with source, six props and
index 2. -/
theorem annotationToPrompt_template_witness :
    annotationToPrompt
      { element := Option.none, elements := [],
        rect := ⟨0, 0, 1, 1⟩,
        fiberInfo := FiberField.one
          { componentName := "Button",
            props := [("variant", JSValue.str "primary"),
                      ("size", JSValue.str "lg"),
                      ("disabled", JSValue.other "false"),
                      ("count", JSValue.other "3"),
                      ("onClick", JSValue.other "function"),
                      ("extra", JSValue.str "x")],
            source := some ⟨"src/button.tsx", 45, 12⟩ },
        id := 1 }
      "Make it blue" (some 2) =
    specAnnotationPrompt
      { element := Option.none, elements := [],
        rect := ⟨0, 0, 1, 1⟩,
        fiberInfo := FiberField.one
          { componentName := "Button",
            props := [("variant", JSValue.str "primary"),
                      ("size", JSValue.str "lg"),
                      ("disabled", JSValue.other "false"),
                      ("count", JSValue.other "3"),
                      ("onClick", JSValue.other "function"),
                      ("extra", JSValue.str "x")],
            source := some ⟨"src/button.tsx", 45, 12⟩ },
        id := 1 }
      "Make it blue" 2 :=
  annotationToPrompt_template _ "Make it blue" 2 (by decide)

/-- C8: the generated prompt depends only on the first captured fiber info:
the output over a fiber-info list is unchanged by modifying or dropping every
entry after the first; an empty list or null fiberInfo renders the component
as "unknown" with no location or props lines; and an index of 0 or an omitted
index renders the heading as "Annotation :" with no number. -/
theorem annotationToPrompt_first_fiber_only (ann : AnnotationData)
    (cr : String) (idx : Option Nat) (a : FiberInfo)
    (l l' : List FiberInfo) :
    (annotationToPrompt { ann with fiberInfo := FiberField.many (a :: l) }
        cr idx =
      annotationToPrompt { ann with fiberInfo := FiberField.many (a :: l') }
        cr idx) ∧
    (annotationToPrompt { ann with fiberInfo := FiberField.many (a :: l) }
        cr idx =
      annotationToPrompt { ann with fiberInfo := FiberField.many [a] }
        cr idx) ∧
    (annotationToPrompt { ann with fiberInfo := FiberField.many [] } cr idx =
      "Annotation " ++ renderIdx idx ++ ":" ++ "\n" ++
        "[Component: <unknown>]" ++ "\n" ++ "[Change Request]: " ++ cr ++
        "\n") ∧
    (annotationToPrompt { ann with fiberInfo := FiberField.null } cr idx =
      "Annotation " ++ renderIdx idx ++ ":" ++ "\n" ++
        "[Component: <unknown>]" ++ "\n" ++ "[Change Request]: " ++ cr ++
        "\n") ∧
    (annotationToPrompt ann cr (some 0) =
      annotationToPrompt ann cr Option.none) ∧
    (annotationToPrompt { ann with fiberInfo := FiberField.null } cr
        Option.none =
      "Annotation :" ++ "\n" ++ "[Component: <unknown>]" ++ "\n" ++
        "[Change Request]: " ++ cr ++ "\n") :=
  ⟨rfl, rfl, rfl, rfl, rfl, rfl⟩

/-- JS whitespace characters stripped by String.prototype.trim (the ASCII
subset; `!value.trim()` holds iff every character is whitespace). -/
def jsWhitespace (c : Char) : Bool :=
  c = ' ' || c = '\t' || c = '\n' || c = '\r' || c = '\x0b' || c = '\x0c'

/-- The guard `!value.trim()`: the change request is blank (empty or
whitespace-only). -/
def jsBlank (s : String) : Bool :=
  s.data.all jsWhitespace

/-- Handler `MultiAnnotationPromptDialog.handleSubmit` from ai-toolbar.tsx, as a
function from its inputs (the captured annotations, the textarea value and
the current response state) to the new response state: a blank value leaves
the response unchanged, otherwise the response becomes the joined
context-enriched prompts, computed locally. -/
def handleSubmitMulti (anns : List AnnotationData) (value : String)
    (response : String) : String :=
  if jsBlank value then response
  else
    String.intercalate "\n---\n\n"
      (anns.enum.map (fun p => annotationToPrompt p.2 value (some (p.1 + 1))))

/-- Handler `SingleAnnotationPromptDialog.handleSubmit` from ai-toolbar.tsx: the same
computation over the one-element list `[annotation]`. -/
def handleSubmitSingle (ann : AnnotationData) (value : String)
    (response : String) : String :=
  if jsBlank value then response
  else
    String.intercalate "\n---\n\n"
      ([ann].enum.map (fun p => annotationToPrompt p.2 value (some (p.1 + 1))))

/-- C5: submitting a change request only produces text computed locally, and
is deterministic: the new response does not depend on any prior state when
the value is non-blank, and equals the annotationToPrompt outputs of the
annotations (indexed from 1 in list order) joined by the separator
newline dash dash dash newline newline; a blank (whitespace-only) value
leaves the response unchanged, so it produces no response. -/
theorem handleSubmit_local_deterministic (anns : List AnnotationData)
    (ann : AnnotationData) (v : String) (r r' : String) :
    (jsBlank v = true →
      handleSubmitMulti anns v r = r ∧ handleSubmitSingle ann v r = r) ∧
    (jsBlank v = false →
      handleSubmitMulti anns v r = handleSubmitMulti anns v r' ∧
      handleSubmitMulti anns v r =
        String.intercalate "\n---\n\n"
          (anns.enum.map
            (fun p => annotationToPrompt p.2 v (some (p.1 + 1)))) ∧
      handleSubmitSingle ann v r = annotationToPrompt ann v (some 1)) := by
  constructor
  · intro hb
    simp [handleSubmitMulti, handleSubmitSingle, hb]
  · intro hb
    refine ⟨?_, ?_, ?_⟩ <;>
      simp [handleSubmitMulti, handleSubmitSingle, hb, List.enum,
        String.intercalate, String.intercalate.go]

/-- Witness for C5: a whitespace-only value leaves the response unchanged,
and a non-blank value over no annotations yields the empty joined prompt. -/
theorem handleSubmit_local_deterministic_witness :
    handleSubmitMulti [] " \t " "" = "" ∧
    handleSubmitMulti [] "x" "" = String.intercalate "\n---\n\n" [] :=
  ⟨((handleSubmit_local_deterministic []
      ⟨Option.none, [], ⟨0, 0, 0, 0⟩, FiberField.null, 0⟩ " \t " "" "").1
      (by decide)).1,
   by
    have h := ((handleSubmit_local_deterministic []
      ⟨Option.none, [], ⟨0, 0, 0, 0⟩, FiberField.null, 0⟩ "x" "" "").2
      (by decide)).2.1
    simpa using h⟩

/-- Function `isRectIntersecting` from use-bippy.ts: the negated four-way separation
test between the selection rectangle and an element's bounding rect. -/
def isRectIntersecting (rect1 : SelectionRect) (rect2 : SelectionRect) :
    Bool :=
  !(rect1.left + rect1.width < rect2.left ||
    rect2.left + rect2.width < rect1.left ||
    rect1.top + rect1.height < rect2.top ||
    rect2.top + rect2.height < rect1.top)

/-- Function `findElementsInRect` from use-bippy.ts over a document modelled as the
list of all descendants of body (in document order): empty for a null
rectangle, otherwise the elements that are not inside the toolbar container
and whose bounding rect intersects the selection rectangle. -/
def findElementsInRect (doc : List PageElem)
    (rect : Option SelectionRect) : List PageElem :=
  match rect with
  | Option.none => []
  | some r =>
      doc.filter (fun el => !el.inToolbar && isRectIntersecting r el.rect)

/-- Modelled from the claim wording of C3: rect1 lies strictly to the left
of rect2. -/
def strictlyLeftOf (r1 r2 : SelectionRect) : Prop :=
  r1.left + r1.width < r2.left

/-- Modelled from the claim wording of C3: rect1 lies strictly above
rect2. -/
def strictlyAboveOf (r1 r2 : SelectionRect) : Prop :=
  r1.top + r1.height < r2.top

/-- C3: for a non-null selection rectangle, findElementsInRect returns
exactly the page elements outside the toolbar container whose bounding rect
intersects it, where intersection holds iff neither rectangle lies strictly
to the left of, strictly to the right of, strictly above, or strictly below
the other; rectangles merely touching at an edge intersect; a null rectangle
yields the empty list. -/
theorem findElementsInRect_spec (doc : List PageElem) (r : SelectionRect) :
    findElementsInRect doc Option.none = [] ∧
    (∀ e : PageElem,
      e ∈ findElementsInRect doc (some r) ↔
        e ∈ doc ∧ e.inToolbar = false ∧ isRectIntersecting r e.rect = true) ∧
    (∀ q : SelectionRect,
      isRectIntersecting r q = true ↔
        ¬(strictlyLeftOf r q ∨ strictlyLeftOf q r ∨
          strictlyAboveOf r q ∨ strictlyAboveOf q r)) ∧
    (∀ q : SelectionRect, r.left + r.width = q.left →
      ¬strictlyAboveOf r q → ¬strictlyAboveOf q r →
      ¬strictlyLeftOf q r → isRectIntersecting r q = true) := by
  refine ⟨rfl, ?_, ?_, ?_⟩
  · intro e
    simp [findElementsInRect, List.mem_filter, and_assoc]
  · intro q
    simp only [isRectIntersecting, strictlyLeftOf, strictlyAboveOf]
    simp [not_or]
    omega
  · intro q h1 h2 h3 h4
    simp only [isRectIntersecting, strictlyLeftOf, strictlyAboveOf] at *
    simp [not_or]
    omega

/-- Witness for C3: two rectangles touching along a vertical edge
intersect. -/
theorem findElementsInRect_spec_witness :
    isRectIntersecting ⟨0, 0, 10, 10⟩ ⟨10, 0, 5, 5⟩ = true :=
  (findElementsInRect_spec [] ⟨0, 0, 10, 10⟩).2.2.2 ⟨10, 0, 5, 5⟩
    (by decide) (by simp only [strictlyAboveOf]; decide)
    (by simp only [strictlyAboveOf]; decide)
    (by simp only [strictlyLeftOf]; decide)

/-- The data a found fiber exposes to getFiberInfo: the display name of its
latest version (null when the component has none), its memoized props (null
when absent) and the result of the asynchronous `getFiberSource` call, which
either resolves to an optional source location or rejects. -/
structure FiberData where
  displayName : Option String
  memoizedProps : Option (List (String × JSValue))
  sourceResult : Except Unit (Option SourceLoc)

/-- Outcome of the external bippy introspection for an element: the lookup
throws synchronously (caught by the outer try/catch), finds no fiber, or
finds a fiber with the given data. -/
inductive FiberLookup where
  | err
  | noFiber
  | fiber (d : FiberData)

/-- Function `getFiberInfo` from use-bippy.ts, over an optional element and the bippy
outcome for it: null for a null element; otherwise always a FiberInfo — the
tag-name fallback when no fiber is found or the lookup throws, and the
fiber's data otherwise, with the inner try/catch turning a source-resolution
failure into a null source. -/
def getFiberInfo (element : Option PageElem) (lookup : FiberLookup) :
    Option FiberInfo :=
  match element with
  | Option.none => Option.none
  | some el =>
      match lookup with
      | FiberLookup.err =>
          some { componentName := el.tagName.toLower, props := [],
                 source := Option.none }
      | FiberLookup.noFiber =>
          some { componentName := el.tagName.toLower, props := [],
                 source := Option.none }
      | FiberLookup.fiber d =>
          some
            { componentName :=
                jsOrStr (match d.displayName with
                         | some s => s
                         | Option.none => "") el.tagName.toLower
              props :=
                match d.memoizedProps with
                | some ps => ps
                | Option.none => []
              source :=
                match d.sourceResult with
                | Except.ok s => s
                | Except.error _ => Option.none }

/-- Modelled from the claim wording of C6: the component name is the fiber's
display name when a fiber is found and has one (a non-empty name), otherwise
the element's lowercased tag name. -/
def expectedComponentName (el : PageElem) (lookup : FiberLookup) : String :=
  match lookup with
  | FiberLookup.fiber d =>
      match d.displayName with
      | some s => if s = "" then el.tagName.toLower else s
      | Option.none => el.tagName.toLower
  | _ => el.tagName.toLower

/-- Modelled from the claim wording of C6: the props record is the fiber's
memoized props, or the empty record. -/
def expectedProps (lookup : FiberLookup) : List (String × JSValue) :=
  match lookup with
  | FiberLookup.fiber d =>
      match d.memoizedProps with
      | some ps => ps
      | Option.none => []
  | _ => []

/-- Modelled from the claim wording of C6: the source field is null whenever
no fiber is found or source resolution fails, and the resolved source
otherwise. -/
def expectedSource (lookup : FiberLookup) : Option SourceLoc :=
  match lookup with
  | FiberLookup.fiber d =>
      match d.sourceResult with
      | Except.ok s => s
      | Except.error _ => Option.none
  | _ => Option.none

/-- C6: for every non-null element, getFiberInfo returns a FiberInfo value
(never null, and the total function model never throws) whose component
name, props and source are as the claim states; for a null element the
result is null. -/
theorem getFiberInfo_total_fallback (el : PageElem) (lookup : FiberLookup) :
    getFiberInfo Option.none lookup = Option.none ∧
    getFiberInfo (some el) lookup =
      some { componentName := expectedComponentName el lookup,
             props := expectedProps lookup,
             source := expectedSource lookup } := by
  refine ⟨rfl, ?_⟩
  cases lookup with
  | err => rfl
  | noFiber => rfl
  | fiber d =>
      cases hd : d.displayName <;>
        simp [getFiberInfo, expectedComponentName, expectedProps,
          expectedSource, jsOrStr, hd]

/-- State of the hover tracker in useSingleSelect: the last hovered element
and its highlight rect. -/
structure HoverState where
  lastElement : Option PageElem
  rect : Option SelectionRect
deriving DecidableEq

/-- The throttled `handleMouseMove` body of useSingleSelect, applied to the
element under the pointer (`document.elementFromPoint`): returns without
acting when there is no element or it is inside the toolbar container, and
only updates when the element changed. -/
def hoverStep (st : HoverState) (el : Option PageElem) : HoverState :=
  match el with
  | Option.none => st
  | some e =>
      if e.inToolbar then st
      else if st.lastElement = some e then st
      else { lastElement := some e, rect := some e.rect }

/-- The `handleClick` capture handler of useSingleSelect, applied to the
element under the pointer and the bippy outcome for it: the annotation it
passes to onAnnotate, or none when there is no element, the element is
inside the toolbar container, or no fiber info was produced. -/
def clickAnnotate (el : Option PageElem) (lookup : FiberLookup)
    (now : Nat) : Option AnnotationData :=
  match el with
  | Option.none => Option.none
  | some e =>
      if e.inToolbar then Option.none
      else
        match getFiberInfo (some e) lookup with
        | some fi =>
            some { element := some e, elements := [], rect := e.rect,
                   fiberInfo := FiberField.one fi, id := now }
        | Option.none => Option.none

/-- Drawing state of useDrawSelect. -/
structure DrawState where
  isDrawing : Bool
  startPos : Option Position
  currentPos : Option Position
deriving DecidableEq

/-- Handler `handleMouseDown` of useDrawSelect: returns unchanged when the event
target is inside the toolbar container, otherwise starts drawing at the
pointer position. -/
def drawMouseDown (st : DrawState) (target : Option PageElem)
    (x y : Int) : DrawState :=
  if (match target with
      | some e => e.inToolbar
      | Option.none => false) then st
  else { isDrawing := true, startPos := some ⟨x, y⟩,
         currentPos := some ⟨x, y⟩ }

/-- Handler `handleMouseUp` of useDrawSelect, applied to the document and a bippy
oracle: the annotation passed to onAnnotate, or none when not drawing or no
element fell inside the final selection rectangle. -/
def drawMouseUp (doc : List PageElem) (oracle : PageElem → FiberLookup)
    (st : DrawState) (now : Nat) : Option AnnotationData :=
  if st.isDrawing then
    match getSelectionRect st.startPos st.currentPos with
    | some r =>
        let elements := findElementsInRect doc (some r)
        if elements.isEmpty then Option.none
        else
          some { element := Option.none, elements := elements, rect := r,
                 fiberInfo := FiberField.many
                   (elements.filterMap
                     (fun e => getFiberInfo (some e) (oracle e))),
                 id := now }
    | Option.none => Option.none
  else Option.none

/-- C7: no selection operation targets the toolbar's own UI — the hover
tracker and the click-capture handler return without acting on an element
inside the toolbar container, the draw mouse-down does not start a drag on
such an element, findElementsInRect never returns such an element, and
every annotation produced by the click or draw paths captures only elements
outside the toolbar container. -/
theorem toolbar_self_exclusion (st : HoverState) (ds : DrawState)
    (e : PageElem) (doc : List PageElem) (r : Option SelectionRect)
    (oracle : PageElem → FiberLookup) (lookup : FiberLookup)
    (x y : Int) (now : Nat) :
    (e.inToolbar = true → hoverStep st (some e) = st) ∧
    (e.inToolbar = true → clickAnnotate (some e) lookup now = Option.none) ∧
    (e.inToolbar = true → drawMouseDown ds (some e) x y = ds) ∧
    (e ∈ findElementsInRect doc r → e.inToolbar = false) ∧
    (∀ el a, clickAnnotate el lookup now = some a →
      (a.element = some e ∨ e ∈ a.elements) → e.inToolbar = false) ∧
    (∀ a, drawMouseUp doc oracle ds now = some a → e ∈ a.elements →
      e.inToolbar = false) := by
  refine ⟨?_, ?_, ?_, ?_, ?_, ?_⟩
  · intro h; simp [hoverStep, h]
  · intro h; simp [clickAnnotate, h]
  · intro h; simp [drawMouseDown, h]
  · intro h
    cases r with
    | none => simp [findElementsInRect] at h
    | some rc =>
        have := (List.mem_filter.mp h).2
        simp only [Bool.and_eq_true, Bool.not_eq_true'] at this
        exact this.1
  · intro el a ha hmem
    cases el with
    | none => simp [clickAnnotate] at ha
    | some e0 =>
        by_cases h0 : e0.inToolbar
        · simp [clickAnnotate, h0] at ha
        · cases hfi : getFiberInfo (some e0) lookup with
          | none => simp [clickAnnotate, h0, hfi] at ha
          | some fi =>
              simp only [clickAnnotate, h0, hfi, if_false, Bool.false_eq_true,
                if_neg, Option.some.injEq] at ha
              subst ha
              rcases hmem with hel | hin
              · simp only [Option.some.injEq] at hel
                subst hel
                exact Bool.not_eq_true _ |>.mp h0
              · simp at hin
  · intro a ha hmem
    by_cases hd : ds.isDrawing
    · cases hr : getSelectionRect ds.startPos ds.currentPos with
      | none => simp [drawMouseUp, hd, hr] at ha
      | some rc =>
          by_cases he : (findElementsInRect doc (some rc)).isEmpty
          · simp [drawMouseUp, hd, hr, he] at ha
          · simp only [drawMouseUp, hd, hr, he, if_true, if_false,
              Bool.false_eq_true, Option.some.injEq] at ha
            subst ha
            simp only at hmem
            have := (List.mem_filter.mp hmem).2
            simp only [Bool.and_eq_true, Bool.not_eq_true'] at this
            exact this.1
    · simp [drawMouseUp, hd] at ha

/-- Witness for C7 at a concrete toolbar element, a concrete page element
and a concrete draw selection. -/
theorem toolbar_self_exclusion_witness :
    hoverStep ⟨Option.none, Option.none⟩
      (some ⟨0, "DIV", ⟨0, 0, 100, 100⟩, true⟩) =
      ⟨Option.none, Option.none⟩ ∧
    clickAnnotate (some ⟨0, "DIV", ⟨0, 0, 100, 100⟩, true⟩)
      FiberLookup.noFiber 7 = Option.none ∧
    drawMouseDown ⟨false, Option.none, Option.none⟩
      (some ⟨0, "DIV", ⟨0, 0, 100, 100⟩, true⟩) 1 2 =
      ⟨false, Option.none, Option.none⟩ ∧
    (⟨1, "BUTTON", ⟨2, 2, 3, 3⟩, false⟩ : PageElem).inToolbar = false := by
  refine ⟨?_, ?_, ?_, ?_⟩
  · exact (toolbar_self_exclusion ⟨Option.none, Option.none⟩
      ⟨false, Option.none, Option.none⟩ ⟨0, "DIV", ⟨0, 0, 100, 100⟩, true⟩
      [] Option.none (fun _ => FiberLookup.noFiber) FiberLookup.noFiber
      1 2 7).1 rfl
  · exact (toolbar_self_exclusion ⟨Option.none, Option.none⟩
      ⟨false, Option.none, Option.none⟩ ⟨0, "DIV", ⟨0, 0, 100, 100⟩, true⟩
      [] Option.none (fun _ => FiberLookup.noFiber) FiberLookup.noFiber
      1 2 7).2.1 rfl
  · exact (toolbar_self_exclusion ⟨Option.none, Option.none⟩
      ⟨false, Option.none, Option.none⟩ ⟨0, "DIV", ⟨0, 0, 100, 100⟩, true⟩
      [] Option.none (fun _ => FiberLookup.noFiber) FiberLookup.noFiber
      1 2 7).2.2.1 rfl
  · exact (toolbar_self_exclusion ⟨Option.none, Option.none⟩
      ⟨false, Option.none, Option.none⟩ ⟨1, "BUTTON", ⟨2, 2, 3, 3⟩, false⟩
      [⟨0, "DIV", ⟨0, 0, 100, 100⟩, true⟩, ⟨1, "BUTTON", ⟨2, 2, 3, 3⟩, false⟩]
      (some ⟨0, 0, 10, 10⟩) (fun _ => FiberLookup.noFiber)
      FiberLookup.noFiber 1 2 7).2.2.2.1 (by decide)

/-- Handler `AnnotationCard.handleClick`: a mouse click invokes the card's onClick
action (modelled abstractly as a value of any type). -/
def cardHandleClick {α : Type} (onClick : α) : α :=
  onClick

/-- Handler `AnnotationCard.handleKeyDown`: on "Enter" or " " it prevents the
default behaviour and invokes onClick; on any other key it does nothing.
The result is the invoked action (if any) paired with whether
preventDefault was called. -/
def cardHandleKeyDown {α : Type} (onClick : α) (key : String) :
    Option α × Bool :=
  if key = "Enter" || key = " " then (some onClick, true)
  else (Option.none, false)

/-- C9: a keydown of "Enter" or " " on an annotation card triggers exactly
the same onClick action as a mouse click and prevents the key's default
behaviour; a keydown of any other key triggers no action and does not
prevent the default. -/
theorem cardKeyDown_activation {α : Type} (onClick : α) (key : String) :
    ((key = "Enter" ∨ key = " ") →
      cardHandleKeyDown onClick key =
        (some (cardHandleClick onClick), true)) ∧
    (key ≠ "Enter" → key ≠ " " →
      cardHandleKeyDown onClick key = (Option.none, false)) := by
  constructor
  · rintro (h | h) <;> simp [cardHandleKeyDown, cardHandleClick, h]
  · intro h1 h2
    simp [cardHandleKeyDown, h1, h2]

/-- Witness for C9 at the keys "Enter" and "a". -/
theorem cardKeyDown_activation_witness :
    cardHandleKeyDown (7 : Nat) "Enter" = (some 7, true) ∧
    cardHandleKeyDown (7 : Nat) "a" = (Option.none, false) :=
  ⟨(cardKeyDown_activation 7 "Enter").1 (Or.inl rfl),
   (cardKeyDown_activation 7 "a").2 (by decide) (by decide)⟩

/-- Trace semantics of `throttle(fn, wait)` from use-bippy.ts.  The input is
the time-stamped list of calls to the throttled function; the state is the
pending timer (its fire time and the arguments captured when it was set —
the arguments of the call that started the timer).  A call finding no timer
pending sets one for `wait` later with its own arguments; a call arriving
while a timer is pending is dropped.  The output is the list of underlying
invocations, each with its fire time and arguments. -/
def throttleRun (wait : Nat) {α : Type} :
    Option (Nat × α) → List (Nat × α) → List (Nat × α)
  | Option.none, [] => []
  | some p, [] => [p]
  | Option.none, e :: rest =>
      throttleRun wait (some (e.1 + wait, e.2)) rest
  | some p, e :: rest =>
      if p.1 ≤ e.1 then p :: throttleRun wait (some (e.1 + wait, e.2)) rest
      else throttleRun wait (some p) rest

/-- The invocations that `throttle(fn, wait)` performs for a given list of
time-stamped calls. -/
def throttle {α : Type} (wait : Nat) (events : List (Nat × α)) :
    List (Nat × α) :=
  throttleRun wait Option.none events

/-- A pending timer is always the first invocation to fire. -/
theorem throttleRun_some_head {α : Type} (wait : Nat) (p : Nat × α)
    (evs : List (Nat × α)) :
    ∃ tl, throttleRun wait (some p) evs = p :: tl := by
  induction evs generalizing p with
  | nil => exact ⟨[], rfl⟩
  | cons e rest ih =>
      by_cases h : p.1 ≤ e.1
      · exact ⟨throttleRun wait (some (e.1 + wait, e.2)) rest,
          by simp [throttleRun, h]⟩
      · obtain ⟨tl, htl⟩ := ih p
        exact ⟨tl, by simp [throttleRun, h, htl]⟩

/-- Consecutive underlying invocations are at least `wait` apart. -/
theorem throttleRun_chain {α : Type} (wait : Nat) (evs : List (Nat × α)) :
    ∀ st : Option (Nat × α),
      List.Chain' (fun p q : Nat × α => p.1 + wait ≤ q.1)
        (throttleRun wait st evs) := by
  induction evs with
  | nil =>
      intro st
      cases st <;> simp [throttleRun]
  | cons e rest ih =>
      intro st
      cases st with
      | none => simpa [throttleRun] using ih (some (e.1 + wait, e.2))
      | some p =>
          by_cases h : p.1 ≤ e.1
          · rw [show throttleRun wait (some p) (e :: rest) =
                p :: throttleRun wait (some (e.1 + wait, e.2)) rest from
                by simp [throttleRun, h]]
            refine List.chain'_cons'.mpr ⟨?_, ih _⟩
            intro q hq
            obtain ⟨tl, htl⟩ := throttleRun_some_head wait (e.1 + wait, e.2)
              rest
            rw [htl] at hq
            simp only [List.head?_cons, Option.mem_def, Option.some.injEq]
              at hq
            subst hq
            exact Nat.add_le_add_right h wait
          · simpa [throttleRun, h] using ih (some p)

/-- C4 (amended): the hover tracker's mousemove handler is rate-limited with
a 32 ms wait — at most one underlying invocation per wait window
(consecutive invocations at least 32 ms apart; calls arriving while a timer
is pending are dropped), and the invocation fired at the end of the wait
processes the pointer position of the call that started the window, i.e.
the first position received in that window. -/
theorem throttle_first_of_window {α : Type} (t t' : Nat) (a b : α)
    (rest events : List (Nat × α)) :
    List.Chain' (fun p q : Nat × α => p.1 + 32 ≤ q.1)
      (throttle 32 events) ∧
    (∃ tl, throttle 32 ((t, a) :: rest) = (t + 32, a) :: tl) ∧
    (t' < t + 32 →
      throttle 32 ((t, a) :: (t', b) :: rest) =
        throttle 32 ((t, a) :: rest)) := by
  refine ⟨throttleRun_chain 32 events Option.none, ?_, ?_⟩
  · exact throttleRun_some_head 32 (t + 32, a) rest
  · intro h
    have hn : ¬ t + 32 ≤ t' := by omega
    simp [throttle, throttleRun, hn]

/-- Witness for C4's amended claim: a second call 10 ms into the window is
dropped. -/
theorem throttle_first_of_window_witness :
    throttle 32 [((0 : Nat), (5 : Int)), (10, 7)] = throttle 32 [(0, 5)] :=
  (throttle_first_of_window 0 10 (5 : Int) 7 [] []).2.2 (by decide)

/-- Counterexample to C4 as stated: with calls at 0 ms (position 0) and
10 ms (position 1), the single invocation fires at 32 ms with position 0 —
the first position of the window — not the most recent position 1. -/
theorem throttle_not_most_recent :
    throttle 32 [((0 : Nat), (0 : Int)), (10, 1)] = [(32, 0)] ∧
    throttle 32 [((0 : Nat), (0 : Int)), (10, 1)] ≠ [(32, 1)] := by
  constructor
  · rfl
  · decide

/-- Drag-related state of AIAnnotationToolbar: `isDragging`, `dragOffset`
and the rendered `position` (the toolbar's style left/top). -/
structure ToolbarState where
  isDragging : Bool
  dragOffset : Position
  position : Position
deriving DecidableEq

/-- The mouse events relevant to toolbar dragging: a mouse-down on the
toolbar (whether the target is inside a `.drag-handle`, the pointer
coordinates, and the toolbar's bounding rect origin), a document-level
mouse move, and a document-level mouse up. -/
inductive ToolbarEvent where
  | mouseDown (inDragHandle : Bool) (clientX clientY rectLeft rectTop : Int)
  | docMouseMove (clientX clientY : Int)
  | docMouseUp
deriving DecidableEq

/-- Handler `handleMouseDown` from AIAnnotationToolbar: when the target is inside a
`.drag-handle`, set `isDragging` and record the grab offset within the
toolbar's bounding rect. -/
def handleMouseDown (st : ToolbarState) (inDragHandle : Bool)
    (clientX clientY rectLeft rectTop : Int) : ToolbarState :=
  if inDragHandle then
    { st with isDragging := true,
              dragOffset := ⟨clientX - rectLeft, clientY - rectTop⟩ }
  else st

/-- One event step of AIAnnotationToolbar's drag handling.  The `useEffect`
that would attach document mousemove/mouseup listeners (updating `position`
to follow the pointer and clearing `isDragging` on mouse up) is commented
out in the source, so document mouse-move and mouse-up events change
nothing. -/
def toolbarStep (st : ToolbarState) : ToolbarEvent → ToolbarState
  | ToolbarEvent.mouseDown inH cx cy rl rt =>
      handleMouseDown st inH cx cy rl rt
  | ToolbarEvent.docMouseMove _ _ => st
  | ToolbarEvent.docMouseUp => st

/-- Run the toolbar's drag handling over a list of events. -/
def toolbarRun (st : ToolbarState) (evs : List ToolbarEvent) : ToolbarState :=
  evs.foldl toolbarStep st

/-- C1 (code bug): a mouse-down at (120,110) on a drag-handle of the toolbar
whose rect origin is (100,100) does begin a drag — isDragging becomes true
and the drag offset records the grab point (20,10) — but a subsequent mouse
move to (300,200) leaves the rendered position at its initial (100,100)
instead of following the pointer to (280,190), and a mouse-up leaves
isDragging true: the positioning effect is commented out in the source, so
no mousemove/mouseup listeners exist. -/
theorem toolbar_drag_position_frozen :
    toolbarRun ⟨false, ⟨0, 0⟩, ⟨100, 100⟩⟩
      [ToolbarEvent.mouseDown true 120 110 100 100] =
      ⟨true, ⟨20, 10⟩, ⟨100, 100⟩⟩ ∧
    toolbarRun ⟨false, ⟨0, 0⟩, ⟨100, 100⟩⟩
      [ToolbarEvent.mouseDown true 120 110 100 100,
       ToolbarEvent.docMouseMove 300 200,
       ToolbarEvent.docMouseUp] =
      ⟨true, ⟨20, 10⟩, ⟨100, 100⟩⟩ ∧
    (toolbarRun ⟨false, ⟨0, 0⟩, ⟨100, 100⟩⟩
      [ToolbarEvent.mouseDown true 120 110 100 100,
       ToolbarEvent.docMouseMove 300 200]).position ≠ ⟨280, 190⟩ ∧
    (toolbarRun ⟨false, ⟨0, 0⟩, ⟨100, 100⟩⟩
      [ToolbarEvent.mouseDown true 120 110 100 100,
       ToolbarEvent.docMouseMove 300 200,
       ToolbarEvent.docMouseUp]).isDragging ≠ false := by
  refine ⟨rfl, rfl, by decide, by decide⟩

end AIToolbar
